import Mathlib

/-!
Shallow embedding of `src/signalform/dashboard.go` from
`terraform-provider-signalform`: the dashboard payload translator
(`getPayloadDashboard` and its helpers) and the four lifecycle handlers
(`dashboardCreate` / `dashboardRead` / `dashboardUpdate` / `dashboardDelete`).

Modelling conventions:
* A Terraform `*schema.ResourceData` for the dashboard resource is modelled as
  the structure `ResourceData` below, one field per schema key.  Terraform
  returns the type's zero value for unset optional fields (`""` for strings,
  `0` for ints), so optional scalar fields are plain `String` / `Int` and the
  SDK call `d.GetOk(k)` is modelled by the test `value ≠ 0`, following the
  SDK's documented behaviour (ok iff the value is set to a non-zero value).
* `schema.TypeSet` collections and `(*schema.Set).List()` are modelled as
  Lean lists: the claims under study are per-element or about emptiness, and
  never about the (unspecified) ordering of a Terraform set.
* Go's `map[string]interface{}` values destined for `json.Marshal` are
  modelled as association lists `List (String × Json)` built in the insertion
  order of the source; `Json` is a small JSON value type.  Key lookup is
  `lookupKey`.  Go map keys written by this code are pairwise distinct, so an
  association list is a faithful model.
* Go `int` arithmetic (the `val.(int) * 1000` of `getDashboardTime`) is
  wrapping signed 64-bit arithmetic; it is modelled by `wrap64`, the
  two's-complement reduction of the unbounded product.
* `json.Marshal` and the HTTP helpers `resourceCreate` / `resourceRead` /
  `resourceUpdate` / `resourceDelete` are not part of the translated file
  (the helpers live outside `src/`); they are taken as abstract function
  parameters of the lifecycle handlers, which mirrors their role as external
  collaborators.
-/

namespace Signalform

/-- JSON values, as produced by `json.Marshal` on the maps built in
`dashboard.go` (strings, ints, bools, arrays, objects). -/
inductive Json where
  | str (s : String)
  | int (n : Int)
  | bool (b : Bool)
  | arr (elems : List Json)
  | obj (fields : List (String × Json))

/-- First-match key lookup in an association list, the model of indexing a Go
`map[string]interface{}` whose insertions all used distinct keys. -/
def lookupKey : List (String × Json) → String → Option Json
  | [], _ => none
  | (k, v) :: rest, key => if k = key then some v else lookupKey rest key

/-- Lookup of a top-level key in a JSON object (non-objects have no keys). -/
def objLookup : Json → String → Option Json
  | .obj fields, k => lookupKey fields k
  | _, _ => none

/-- The top-level key list of a JSON object. -/
def Json.keys : Json → List String
  | .obj fields => fields.map Prod.fst
  | _ => []

/-- One element of the `chart` set of the dashboard schema
(`dashboard.go` lines 49-84). -/
structure Chart where
  chart_id : String
  row : Int
  column : Int
  height : Int
  width : Int
  deriving DecidableEq

/-- One element of the `variable` set of the dashboard schema
(`dashboard.go` lines 85-109).  The schema key `alias` is rendered
`aliasStr` because `alias` is a reserved word in this development's
ambient library. -/
structure Variable where
  property : String
  aliasStr : String
  values : List String
  deriving DecidableEq

/-- One element of the `filter` set of the dashboard schema
(`dashboard.go` lines 110-135). -/
structure Filter where
  property : String
  negated : Bool
  values : List String
  deriving DecidableEq

/-- The dashboard resource description: one field per key of the schema in
`dashboardResource`, plus the Terraform-assigned resource id (`d.Id()`).
`synced` and `last_updated` are the computed fields; `last_updated` is a
float in the schema but is never read by the translated code, so its value
type is immaterial and it is modelled as `Int`.  The schema keys `chart`,
`variable`, `filter` name sets; the `variable` set is stored in the field
`vars` because Lean reserves the word `variable`. -/
structure ResourceData where
  synced : Int
  last_updated : Int
  name : String
  description : String
  dashboard_group : String
  time_start : Int
  time_end : Int
  chart : List Chart
  vars : List Variable
  filter : List Filter
  id : String
  deriving DecidableEq

/-- `DASHBOARD_API_URL` (`dashboard.go` line 9). -/
def DASHBOARD_API_URL : String := "https://api.signalfx.com/v2/dashboard"

/-- Modelled from the spec: the provider configuration struct
`signalformConfig` is defined outside `src/`; per the spec it carries the
auth token consumed by every call. -/
structure signalformConfig where
  SfxToken : String

/-- Two's-complement wrap of an integer into the signed 64-bit range: the
result of Go arithmetic on `int` (64-bit on the platforms this provider
targets).  The literals are `2 ^ 63` and `2 ^ 64`, written out in decimal. -/
def wrap64 (n : Int) : Int :=
  (n + 9223372036854775808) % 18446744073709551616 - 9223372036854775808

/-- `getDashboardTime` (`dashboard.go` lines 176-188): builds the `time`
sub-map; `start` / `end` are inserted only when `d.GetOk` reports the field
set to a non-zero value, each multiplied by 1000.  Go's `val.(int) * 1000`
is wrapping signed 64-bit multiplication, modelled by `wrap64` of the
unbounded product.  The Go function returns `nil` for an empty map; both
are modelled by `[]`. -/
def getDashboardTime (d : ResourceData) : List (String × Json) :=
  (if d.time_start ≠ 0 then [("start", Json.int (wrap64 (d.time_start * 1000)))] else [])
    ++ (if d.time_end ≠ 0 then [("end", Json.int (wrap64 (d.time_end * 1000)))] else [])

/-- The loop body of `getDashboardCharts` (`dashboard.go` lines 193-203):
the map built for one chart entry. -/
def chartItem (c : Chart) : List (String × Json) :=
  [("chartId", Json.str c.chart_id),
   ("row", Json.int c.row),
   ("column", Json.int c.column),
   ("height", Json.int c.height),
   ("width", Json.int c.width)]

/-- `getDashboardCharts` (`dashboard.go` lines 190-206). -/
def getDashboardCharts (d : ResourceData) : List (List (String × Json)) :=
  d.chart.map chartItem

/-- The loop body of `getDashboardVariables` (`dashboard.go` lines 211-219):
the map built for one variable entry. -/
def variableItem (v : Variable) : List (String × Json) :=
  [("property", Json.str v.property),
   ("alias", Json.str v.aliasStr),
   ("value", Json.arr (v.values.map Json.str))]

/-- `getDashboardVariables` (`dashboard.go` lines 208-222). -/
def getDashboardVariables (d : ResourceData) : List (List (String × Json)) :=
  d.vars.map variableItem

/-- The loop body of `getDashboardFilters` (`dashboard.go` lines 227-235):
the map built for one filter entry. -/
def filterItem (f : Filter) : List (String × Json) :=
  [("property", Json.str f.property),
   ("NOT", Json.bool f.negated),
   ("value", Json.arr (f.values.map Json.str))]

/-- `getDashboardFilters` (`dashboard.go` lines 224-238). -/
def getDashboardFilters (d : ResourceData) : List (List (String × Json)) :=
  d.filter.map filterItem

/-- The local map `all_filters` built inside `getPayloadDashboard`
(`dashboard.go` lines 155-164): the `sources` / `variables` / `time`
sub-entries, each inserted only when non-empty. -/
def all_filters (d : ResourceData) : List (String × Json) :=
  (if (getDashboardFilters d).length > 0
    then [("sources", Json.arr ((getDashboardFilters d).map Json.obj))] else [])
  ++ (if (getDashboardVariables d).length > 0
    then [("variables", Json.arr ((getDashboardVariables d).map Json.obj))] else [])
  ++ (if (getDashboardTime d).length > 0
    then [("time", Json.obj (getDashboardTime d))] else [])

/-- `getPayloadDashboard` (`dashboard.go` lines 148-174) up to (but not
including) the final `json.Marshal`: the JSON object it hands to the
serializer.  The conditional inserts follow the source line by line. -/
def getPayloadDashboard (d : ResourceData) : Json :=
  Json.obj
    ([("name", Json.str d.name),
      ("description", Json.str d.description),
      ("groupId", Json.str d.dashboard_group)]
     ++ (if (all_filters d).length > 0 then [("filters", Json.obj (all_filters d))] else [])
     ++ (if (getDashboardCharts d).length > 0
        then [("charts", Json.arr ((getDashboardCharts d).map Json.obj))] else []))

/-- `dashboardCreate` (`dashboard.go` lines 240-248).  `marshal` abstracts
`json.Marshal` applied to the payload object, `resourceCreate` abstracts the
external HTTP helper; the Go `error` return is `Option String`
(`none` = nil error). -/
def dashboardCreate (marshal : Json → Except String String)
    (resourceCreate : String → String → String → Option String)
    (config : signalformConfig) (d : ResourceData) : Option String :=
  match marshal (getPayloadDashboard d) with
  | .error e => some ("Failed creating json payload: " ++ e)
  | .ok payload => resourceCreate DASHBOARD_API_URL config.SfxToken payload

/-- `dashboardRead` (`dashboard.go` lines 250-255). -/
def dashboardRead (resourceRead : String → String → Option String)
    (config : signalformConfig) (d : ResourceData) : Option String :=
  resourceRead (DASHBOARD_API_URL ++ "/" ++ d.id) config.SfxToken

/-- `dashboardUpdate` (`dashboard.go` lines 257-266). -/
def dashboardUpdate (marshal : Json → Except String String)
    (resourceUpdate : String → String → String → Option String)
    (config : signalformConfig) (d : ResourceData) : Option String :=
  match marshal (getPayloadDashboard d) with
  | .error e => some ("Failed creating json payload: " ++ e)
  | .ok payload => resourceUpdate (DASHBOARD_API_URL ++ "/" ++ d.id) config.SfxToken payload

/-- `dashboardDelete` (`dashboard.go` lines 268-272). -/
def dashboardDelete (resourceDelete : String → String → Option String)
    (config : signalformConfig) (d : ResourceData) : Option String :=
  resourceDelete (DASHBOARD_API_URL ++ "/" ++ d.id) config.SfxToken


/-- A sample filter entry: the example of spec section 8. -/
def sampleFilter : Filter := { property := "host", negated := true, values := ["a", "b"] }

/-- A sample chart entry: the example of spec section 8. -/
def sampleChart : Chart := { chart_id := "abc", row := 0, column := 0, height := 1, width := 12 }

/-- A sample variable entry. -/
def sampleVariable : Variable := { property := "env", aliasStr := "Environment", values := ["prod"] }

/-- A dashboard description with every collection empty and no time bounds. -/
def sampleEmpty : ResourceData :=
  { synced := 0, last_updated := 0, name := "n", description := "", dashboard_group := "g",
    time_start := 0, time_end := 0, chart := [], vars := [], filter := [], id := "id0" }

/-- A dashboard description with one filter and nothing else set. -/
def sampleFiltered : ResourceData :=
  { sampleEmpty with filter := [sampleFilter], id := "id1" }

/-- A dashboard description whose only non-default fields are the two time
bounds of the spec example (`time_start = 10`, `time_end = 20`). -/
def sampleTimed : ResourceData :=
  { sampleEmpty with time_start := 10, time_end := 20, id := "id2" }

/-- A dashboard description whose `time_start` is `2 ^ 62` seconds (written
in decimal), a representable Go int whose millisecond product overflows
64 bits. -/
def sampleOverflow : ResourceData :=
  { sampleEmpty with time_start := 4611686018427387904, id := "id4" }

/-- A dashboard description with every optional part populated. -/
def sampleFull : ResourceData :=
  { synced := 1, last_updated := 5, name := "full", description := "desc",
    dashboard_group := "grp", time_start := 10, time_end := 20,
    chart := [sampleChart], vars := [sampleVariable], filter := [sampleFilter], id := "id3" }

/-- `sampleFull` with both computed fields zeroed: it differs from
`sampleFull` only in `synced` and `last_updated`. -/
def sampleFullComputed : ResourceData :=
  { sampleFull with synced := 0, last_updated := 0 }

/-! ## General lemmas about the embedding -/


theorem lookupKey_append (xs ys : List (String × Json)) (k : String) :
    lookupKey (xs ++ ys) k =
      match lookupKey xs k with
      | some v => some v
      | none => lookupKey ys k := by
  induction xs with
  | nil => simp [lookupKey]
  | cons p rest ih =>
    obtain ⟨a, b⟩ := p
    simp only [List.cons_append, lookupKey]
    by_cases h : a = k <;> simp [h, ih]

theorem lookupKey_eq_none (xs : List (String × Json)) (k : String)
    (h : k ∉ xs.map Prod.fst) : lookupKey xs k = none := by
  induction xs with
  | nil => rfl
  | cons p rest ih =>
    obtain ⟨a, b⟩ := p
    simp only [List.map_cons, List.mem_cons, not_or] at h
    have hak : a ≠ k := fun hh => h.1 hh.symm
    simp [lookupKey, hak, ih h.2]

theorem getDashboardFilters_length (d : ResourceData) :
    (getDashboardFilters d).length = d.filter.length := by
  simp [getDashboardFilters]

theorem getDashboardVariables_length (d : ResourceData) :
    (getDashboardVariables d).length = d.vars.length := by
  simp [getDashboardVariables]

theorem getDashboardCharts_length (d : ResourceData) :
    (getDashboardCharts d).length = d.chart.length := by
  simp [getDashboardCharts]

theorem lookup_time_start (d : ResourceData) :
    lookupKey (getDashboardTime d) "start" =
      if d.time_start = 0 then none
      else some (Json.int (wrap64 (d.time_start * 1000))) := by
  by_cases h1 : d.time_start = 0 <;> by_cases h2 : d.time_end = 0 <;>
    simp [getDashboardTime, h1, h2, lookupKey_append, lookupKey]

theorem lookup_time_end (d : ResourceData) :
    lookupKey (getDashboardTime d) "end" =
      if d.time_end = 0 then none
      else some (Json.int (wrap64 (d.time_end * 1000))) := by
  by_cases h1 : d.time_start = 0 <;> by_cases h2 : d.time_end = 0 <;>
    simp [getDashboardTime, h1, h2, lookupKey_append, lookupKey]

theorem getDashboardTime_eq_nil (d : ResourceData) :
    getDashboardTime d = [] ↔ d.time_start = 0 ∧ d.time_end = 0 := by
  by_cases h1 : d.time_start = 0 <;> by_cases h2 : d.time_end = 0 <;>
    simp [getDashboardTime, h1, h2]

theorem lookup_all_filters_sources (d : ResourceData) :
    lookupKey (all_filters d) "sources" =
      if d.filter = [] then none
      else some (Json.arr ((getDashboardFilters d).map Json.obj)) := by
  by_cases h1 : d.filter = [] <;> by_cases h2 : d.vars = [] <;>
    by_cases h3 : getDashboardTime d = [] <;>
    simp [all_filters, getDashboardFilters_length, getDashboardVariables_length,
      h1, h2, h3, List.length_pos, lookupKey_append, lookupKey]

theorem lookup_all_filters_variables (d : ResourceData) :
    lookupKey (all_filters d) "variables" =
      if d.vars = [] then none
      else some (Json.arr ((getDashboardVariables d).map Json.obj)) := by
  by_cases h1 : d.filter = [] <;> by_cases h2 : d.vars = [] <;>
    by_cases h3 : getDashboardTime d = [] <;>
    simp [all_filters, getDashboardFilters_length, getDashboardVariables_length,
      h1, h2, h3, List.length_pos, lookupKey_append, lookupKey]

theorem lookup_all_filters_time (d : ResourceData) :
    lookupKey (all_filters d) "time" =
      if d.time_start = 0 ∧ d.time_end = 0 then none
      else some (Json.obj (getDashboardTime d)) := by
  by_cases h1 : d.filter = [] <;> by_cases h2 : d.vars = [] <;>
    by_cases h3 : getDashboardTime d = [] <;>
    simp [all_filters, getDashboardFilters_length, getDashboardVariables_length,
      ← getDashboardTime_eq_nil,
      h1, h2, h3, List.length_pos, lookupKey_append, lookupKey]

theorem all_filters_keys_subset (d : ResourceData) :
    (all_filters d).map Prod.fst ⊆ ["sources", "variables", "time"] := by
  by_cases h1 : d.filter = [] <;> by_cases h2 : d.vars = [] <;>
    by_cases h3 : getDashboardTime d = [] <;>
    simp [all_filters, getDashboardFilters_length, getDashboardVariables_length,
      h1, h2, h3, List.length_pos, List.subset_def]

theorem all_filters_nil_iff (d : ResourceData) :
    all_filters d = [] ↔ d.filter = [] ∧ d.vars = [] ∧ getDashboardTime d = [] := by
  by_cases h1 : d.filter = [] <;> by_cases h2 : d.vars = [] <;>
    by_cases h3 : getDashboardTime d = [] <;>
    simp [all_filters, getDashboardFilters_length, getDashboardVariables_length,
      h1, h2, h3, List.length_pos]

theorem payload_lookup_name (d : ResourceData) :
    objLookup (getPayloadDashboard d) "name" = some (Json.str d.name) := rfl

theorem payload_lookup_description (d : ResourceData) :
    objLookup (getPayloadDashboard d) "description" = some (Json.str d.description) := rfl

theorem payload_lookup_groupId (d : ResourceData) :
    objLookup (getPayloadDashboard d) "groupId" = some (Json.str d.dashboard_group) := rfl

theorem all_filters_eq_nil_iff (d : ResourceData) :
    all_filters d = [] ↔
      d.filter = [] ∧ d.vars = [] ∧ d.time_start = 0 ∧ d.time_end = 0 := by
  rw [all_filters_nil_iff, getDashboardTime_eq_nil]

theorem payload_lookup_filters (d : ResourceData) :
    objLookup (getPayloadDashboard d) "filters" =
      if d.filter = [] ∧ d.vars = [] ∧ d.time_start = 0 ∧ d.time_end = 0 then none
      else some (Json.obj (all_filters d)) := by
  by_cases hf : d.filter = [] <;> by_cases hv : d.vars = [] <;>
    by_cases ht1 : d.time_start = 0 <;> by_cases ht2 : d.time_end = 0 <;>
    by_cases hc : d.chart = [] <;>
    simp [getPayloadDashboard, objLookup, all_filters, getDashboardTime,
      getDashboardFilters_length, getDashboardVariables_length,
      getDashboardCharts_length, hf, hv, ht1, ht2, hc, List.length_pos,
      lookupKey_append, lookupKey]

theorem payload_lookup_charts (d : ResourceData) :
    objLookup (getPayloadDashboard d) "charts" =
      if d.chart = [] then none
      else some (Json.arr ((getDashboardCharts d).map Json.obj)) := by
  by_cases h1 : all_filters d = [] <;> by_cases h2 : d.chart = [] <;>
    simp [getPayloadDashboard, objLookup, getDashboardCharts_length,
      h1, h2, List.length_pos, lookupKey_append, lookupKey]

theorem payload_keys_subset (d : ResourceData) :
    (getPayloadDashboard d).keys ⊆ ["name", "description", "groupId", "filters", "charts"] := by
  by_cases h1 : all_filters d = [] <;> by_cases h2 : d.chart = [] <;>
    simp [getPayloadDashboard, Json.keys, getDashboardCharts_length,
      h1, h2, List.length_pos, List.subset_def]


theorem objLookup_eq_none_of_not_mem_keys (j : Json) (k : String)
    (h : k ∉ j.keys) : objLookup j k = none := by
  cases j with
  | obj fields => exact lookupKey_eq_none fields k h
  | str s => rfl
  | int n => rfl
  | bool b => rfl
  | arr elems => rfl

/-! ## Claims -/

/-- C1: `getPayloadDashboard` always emits the top-level keys `name`,
`description`, and `groupId` (carrying the `dashboard_group` value); it
emits `filters` iff at least one of the filter set, the variable set, or
the time bounds is non-empty, and the `filters` object then carries exactly
the non-empty sub-keys among `sources`, `variables`, `time`; it emits
`charts` iff the chart set is non-empty.  In particular an all-empty
dashboard gets neither a `filters` nor a `charts` key. -/
theorem payload_top_level_shape (d : ResourceData) :
    objLookup (getPayloadDashboard d) "name" = some (Json.str d.name) ∧
    objLookup (getPayloadDashboard d) "description" = some (Json.str d.description) ∧
    objLookup (getPayloadDashboard d) "groupId" = some (Json.str d.dashboard_group) ∧
    ((objLookup (getPayloadDashboard d) "filters").isSome ↔
      (d.filter ≠ [] ∨ d.vars ≠ [] ∨ d.time_start ≠ 0 ∨ d.time_end ≠ 0)) ∧
    (∀ j, objLookup (getPayloadDashboard d) "filters" = some j →
      ((objLookup j "sources").isSome ↔ d.filter ≠ []) ∧
      ((objLookup j "variables").isSome ↔ d.vars ≠ []) ∧
      ((objLookup j "time").isSome ↔ (d.time_start ≠ 0 ∨ d.time_end ≠ 0)) ∧
      j.keys ⊆ ["sources", "variables", "time"]) ∧
    ((objLookup (getPayloadDashboard d) "charts").isSome ↔ d.chart ≠ []) := by
  refine ⟨payload_lookup_name d, payload_lookup_description d,
    payload_lookup_groupId d, ?_, ?_, ?_⟩
  · rw [payload_lookup_filters]
    by_cases h : d.filter = [] ∧ d.vars = [] ∧ d.time_start = 0 ∧ d.time_end = 0
    · simp [h]
    · rw [if_neg h]
      simp
      tauto
  · intro j hj
    rw [payload_lookup_filters] at hj
    by_cases h : d.filter = [] ∧ d.vars = [] ∧ d.time_start = 0 ∧ d.time_end = 0
    · simp [h] at hj
    · rw [if_neg h] at hj
      obtain rfl := (Option.some.injEq _ _).mp hj
      refine ⟨?_, ?_, ?_, all_filters_keys_subset d⟩
      · simp only [objLookup]
        rw [lookup_all_filters_sources]
        by_cases hf : d.filter = [] <;> simp [hf]
      · simp only [objLookup]
        rw [lookup_all_filters_variables]
        by_cases hv : d.vars = [] <;> simp [hv]
      · simp only [objLookup]
        rw [lookup_all_filters_time]
        by_cases ht : d.time_start = 0 ∧ d.time_end = 0
        · simp [ht]
        · rw [if_neg ht]
          simp
          tauto
  · rw [payload_lookup_charts]
    by_cases hc : d.chart = [] <;> simp [hc]

/-- Witness for `payload_top_level_shape`: at a dashboard with one filter,
the emitted `filters` object indeed has a `sources` key. -/
theorem payload_top_level_shape_witness :
    (objLookup (Json.obj (all_filters sampleFiltered)) "sources").isSome ↔
      sampleFiltered.filter ≠ [] :=
  ((payload_top_level_shape sampleFiltered).2.2.2.2.1
    (Json.obj (all_filters sampleFiltered)) rfl).1

/-- C3 as stated is false on the code: Go's `int` multiplication wraps, so
at `time_start = 2 ^ 62` (the decimal literal below, a representable Go
int) the emitted `start` value is the wrapped product 0, not
`time_start * 1000 = 4611686018427387904000`. -/
theorem time_wrap_counterexample :
    sampleOverflow.time_start = 4611686018427387904 ∧
    sampleOverflow.time_start * 1000 = 4611686018427387904000 ∧
    lookupKey (getDashboardTime sampleOverflow) "start" = some (Json.int 0) ∧
    Json.int 0 ≠ Json.int 4611686018427387904000 := by
  refine ⟨rfl, rfl, rfl, ?_⟩
  intro h
  injection h with h
  omega

/-- C3 amended: the `time` sub-object's `start` key is the 64-bit wrapped
product `wrap64 (time_start * 1000)` and its `end` key is
`wrap64 (time_end * 1000)` — equal to the plain products whenever those fit
in a signed 64-bit int (seconds to milliseconds) — each key included
independently of the other; at `time_start = 10`, `time_end = 20` the map
is `{start: 10000, end: 20000}`. -/
theorem time_conversion (d : ResourceData) :
    lookupKey (getDashboardTime d) "start" =
      (if d.time_start = 0 then none
        else some (Json.int (wrap64 (d.time_start * 1000)))) ∧
    lookupKey (getDashboardTime d) "end" =
      (if d.time_end = 0 then none
        else some (Json.int (wrap64 (d.time_end * 1000)))) ∧
    (∀ n : Int, -9223372036854775808 ≤ n * 1000 → n * 1000 < 9223372036854775808 →
      wrap64 (n * 1000) = n * 1000) ∧
    getDashboardTime sampleTimed =
      [("start", Json.int 10000), ("end", Json.int 20000)] := by
  refine ⟨lookup_time_start d, lookup_time_end d, ?_, rfl⟩
  intro n h1 h2
  simp only [wrap64]
  omega

/-- Witness for `time_conversion`: the in-range case at `n = 10`. -/
theorem time_conversion_witness : wrap64 (10 * 1000) = 10 * 1000 :=
  (time_conversion sampleEmpty).2.2.1 10 (by norm_num) (by norm_num)

/-- C9: a zero `time_start` / `time_end` is indistinguishable from an unset
field, so its key is omitted; with no filters and no variables, zero time
bounds also leave the payload without any `filters` key. -/
theorem zero_time_bounds_omitted (d : ResourceData) :
    (d.time_start = 0 → lookupKey (getDashboardTime d) "start" = none) ∧
    (d.time_end = 0 → lookupKey (getDashboardTime d) "end" = none) ∧
    (d.filter = [] → d.vars = [] → d.time_start = 0 → d.time_end = 0 →
      objLookup (getPayloadDashboard d) "filters" = none) := by
  refine ⟨?_, ?_, ?_⟩
  · intro h
    rw [lookup_time_start, if_pos h]
  · intro h
    rw [lookup_time_end, if_pos h]
  · intro h1 h2 h3 h4
    rw [payload_lookup_filters, if_pos ⟨h1, h2, h3, h4⟩]

/-- Witness for `zero_time_bounds_omitted` at the all-empty dashboard. -/
theorem zero_time_bounds_omitted_witness :
    lookupKey (getDashboardTime sampleEmpty) "start" = none ∧
    lookupKey (getDashboardTime sampleEmpty) "end" = none ∧
    objLookup (getPayloadDashboard sampleEmpty) "filters" = none :=
  ⟨(zero_time_bounds_omitted sampleEmpty).1 rfl,
   (zero_time_bounds_omitted sampleEmpty).2.1 rfl,
   (zero_time_bounds_omitted sampleEmpty).2.2 rfl rfl rfl rfl⟩

/-- C10: every top-level key of the payload lies in `{name, description,
groupId, filters, charts}`; the computed fields `synced` and `last_updated`
are never serialized; `description` is always present (the empty string
when the user did not set it). -/
theorem payload_keys_invariant (d : ResourceData) :
    (∀ k, k ∈ (getPayloadDashboard d).keys →
      k ∈ ["name", "description", "groupId", "filters", "charts"]) ∧
    objLookup (getPayloadDashboard d) "synced" = none ∧
    objLookup (getPayloadDashboard d) "last_updated" = none ∧
    objLookup (getPayloadDashboard d) "description" = some (Json.str d.description) := by
  refine ⟨fun k hk => payload_keys_subset d hk, ?_, ?_, payload_lookup_description d⟩
  · exact objLookup_eq_none_of_not_mem_keys _ _
      (fun hm => by simpa using payload_keys_subset d hm)
  · exact objLookup_eq_none_of_not_mem_keys _ _
      (fun hm => by simpa using payload_keys_subset d hm)

/-- Witness for `payload_keys_invariant`: `name` is among the payload keys
of the all-empty dashboard, hence in the allowed key set. -/
theorem payload_keys_invariant_witness :
    "name" ∈ ["name", "description", "groupId", "filters", "charts"] :=
  (payload_keys_invariant sampleEmpty).1 "name" (by decide)

/-- C5: each filter entry maps to a `sources` element whose `NOT` key is the
filter's `negated` flag, whose `value` key is its `values` list, and whose
`property` key passes through unchanged; the spec's example filter
`{property: host, negated: true, values: [a, b]}` maps as stated. -/
theorem filter_entry_mapping :
    (∀ d : ResourceData, getDashboardFilters d = d.filter.map filterItem) ∧
    (∀ f : Filter,
      lookupKey (filterItem f) "property" = some (Json.str f.property) ∧
      lookupKey (filterItem f) "NOT" = some (Json.bool f.negated) ∧
      lookupKey (filterItem f) "value" = some (Json.arr (f.values.map Json.str))) ∧
    filterItem sampleFilter =
      [("property", Json.str "host"), ("NOT", Json.bool true),
       ("value", Json.arr [Json.str "a", Json.str "b"])] :=
  ⟨fun _ => rfl, fun _ => ⟨rfl, rfl, rfl⟩, rfl⟩

/-- C6: each chart entry maps to a `charts` element whose `chartId` key is
the chart's `chart_id` and whose `row`, `column`, `height`, `width` keys
carry its integers through unchanged; the spec's example chart
`{chart_id: abc, row: 0, column: 0, width: 12, height: 1}` maps as stated. -/
theorem chart_entry_mapping :
    (∀ d : ResourceData, getDashboardCharts d = d.chart.map chartItem) ∧
    (∀ c : Chart,
      lookupKey (chartItem c) "chartId" = some (Json.str c.chart_id) ∧
      lookupKey (chartItem c) "row" = some (Json.int c.row) ∧
      lookupKey (chartItem c) "column" = some (Json.int c.column) ∧
      lookupKey (chartItem c) "height" = some (Json.int c.height) ∧
      lookupKey (chartItem c) "width" = some (Json.int c.width)) ∧
    (lookupKey (chartItem sampleChart) "chartId" = some (Json.str "abc") ∧
     lookupKey (chartItem sampleChart) "row" = some (Json.int 0) ∧
     lookupKey (chartItem sampleChart) "column" = some (Json.int 0) ∧
     lookupKey (chartItem sampleChart) "width" = some (Json.int 12) ∧
     lookupKey (chartItem sampleChart) "height" = some (Json.int 1)) :=
  ⟨fun _ => rfl, fun _ => ⟨rfl, rfl, rfl, rfl, rfl⟩, rfl, rfl, rfl, rfl, rfl⟩

/-- C7: each variable entry maps to a `variables` element whose `value` key
is the variable's `values` rendered as a list, with `property` and `alias`
passed through unchanged. -/
theorem variable_entry_mapping :
    (∀ d : ResourceData, getDashboardVariables d = d.vars.map variableItem) ∧
    (∀ v : Variable,
      lookupKey (variableItem v) "property" = some (Json.str v.property) ∧
      lookupKey (variableItem v) "alias" = some (Json.str v.aliasStr) ∧
      lookupKey (variableItem v) "value" = some (Json.arr (v.values.map Json.str))) :=
  ⟨fun _ => rfl, fun _ => ⟨rfl, rfl, rfl⟩⟩

/-- C4: for create and update, a failure while building the payload is
returned at once with the local error message and the HTTP helper is not
invoked (the result is the same for every helper); on success the helper's
result is returned verbatim. -/
theorem lifecycle_error_propagation :
    (∀ (marshal : Json → Except String String)
        (rc rc2 : String → String → String → Option String)
        (config : signalformConfig) (d : ResourceData) (e : String),
      marshal (getPayloadDashboard d) = Except.error e →
        dashboardCreate marshal rc config d =
          some ("Failed creating json payload: " ++ e) ∧
        dashboardCreate marshal rc config d = dashboardCreate marshal rc2 config d) ∧
    (∀ (marshal : Json → Except String String)
        (rc : String → String → String → Option String)
        (config : signalformConfig) (d : ResourceData) (p : String),
      marshal (getPayloadDashboard d) = Except.ok p →
        dashboardCreate marshal rc config d = rc DASHBOARD_API_URL config.SfxToken p) ∧
    (∀ (marshal : Json → Except String String)
        (ru ru2 : String → String → String → Option String)
        (config : signalformConfig) (d : ResourceData) (e : String),
      marshal (getPayloadDashboard d) = Except.error e →
        dashboardUpdate marshal ru config d =
          some ("Failed creating json payload: " ++ e) ∧
        dashboardUpdate marshal ru config d = dashboardUpdate marshal ru2 config d) ∧
    (∀ (marshal : Json → Except String String)
        (ru : String → String → String → Option String)
        (config : signalformConfig) (d : ResourceData) (p : String),
      marshal (getPayloadDashboard d) = Except.ok p →
        dashboardUpdate marshal ru config d =
          ru (DASHBOARD_API_URL ++ "/" ++ d.id) config.SfxToken p) := by
  refine ⟨?_, ?_, ?_, ?_⟩
  · intro marshal rc rc2 config d e he
    simp [dashboardCreate, he]
  · intro marshal rc config d p hp
    simp [dashboardCreate, hp]
  · intro marshal ru ru2 config d e he
    simp [dashboardUpdate, he]
  · intro marshal ru config d p hp
    simp [dashboardUpdate, hp]

/-- Witness for `lifecycle_error_propagation`: a failing serializer aborts
create with the local error; a succeeding one returns the helper result. -/
theorem lifecycle_error_propagation_witness :
    dashboardCreate (fun _ => Except.error "boom") (fun _ _ _ => none)
        ⟨"tok"⟩ sampleEmpty = some ("Failed creating json payload: " ++ "boom") ∧
    dashboardCreate (fun _ => Except.ok "{}") (fun _ _ _ => some "transport failure")
        ⟨"tok"⟩ sampleEmpty = some "transport failure" :=
  ⟨(lifecycle_error_propagation.1 (fun _ => Except.error "boom") (fun _ _ _ => none)
      (fun _ _ _ => some "x") ⟨"tok"⟩ sampleEmpty "boom" rfl).1,
   lifecycle_error_propagation.2.1 (fun _ => Except.ok "{}")
      (fun _ _ _ => some "transport failure") ⟨"tok"⟩ sampleEmpty "{}" rfl⟩

/-- C8: read, update, and delete target the dashboard endpoint with `/` and
the resource id appended, create targets the bare endpoint, and the
configuration's auth token is passed to every helper call. -/
theorem lifecycle_urls_and_token :
    (∀ (rr : String → String → Option String) (config : signalformConfig)
        (d : ResourceData),
      dashboardRead rr config d =
        rr (DASHBOARD_API_URL ++ "/" ++ d.id) config.SfxToken) ∧
    (∀ (rd : String → String → Option String) (config : signalformConfig)
        (d : ResourceData),
      dashboardDelete rd config d =
        rd (DASHBOARD_API_URL ++ "/" ++ d.id) config.SfxToken) ∧
    (∀ (marshal : Json → Except String String)
        (ru : String → String → String → Option String)
        (config : signalformConfig) (d : ResourceData) (p : String),
      marshal (getPayloadDashboard d) = Except.ok p →
        dashboardUpdate marshal ru config d =
          ru (DASHBOARD_API_URL ++ "/" ++ d.id) config.SfxToken p) ∧
    (∀ (marshal : Json → Except String String)
        (rc : String → String → String → Option String)
        (config : signalformConfig) (d : ResourceData) (p : String),
      marshal (getPayloadDashboard d) = Except.ok p →
        dashboardCreate marshal rc config d = rc DASHBOARD_API_URL config.SfxToken p) ∧
    DASHBOARD_API_URL = "https://api.signalfx.com/v2/dashboard" := by
  refine ⟨fun rr config d => rfl, fun rd config d => rfl, ?_, ?_, rfl⟩
  · intro marshal ru config d p hp
    simp [dashboardUpdate, hp]
  · intro marshal rc config d p hp
    simp [dashboardCreate, hp]

/-- Witness for `lifecycle_urls_and_token`: concrete update and create
calls receive the id-suffixed and bare endpoint respectively, with the
token. -/
theorem lifecycle_urls_and_token_witness :
    dashboardUpdate (fun _ => Except.ok "{}")
        (fun url token _ => some (url ++ ":" ++ token)) ⟨"tok"⟩ sampleEmpty =
      some (DASHBOARD_API_URL ++ "/" ++ sampleEmpty.id ++ ":" ++ "tok") ∧
    dashboardCreate (fun _ => Except.ok "{}")
        (fun url token _ => some (url ++ ":" ++ token)) ⟨"tok"⟩ sampleEmpty =
      some (DASHBOARD_API_URL ++ ":" ++ "tok") :=
  ⟨lifecycle_urls_and_token.2.2.1 (fun _ => Except.ok "{}")
      (fun url token _ => some (url ++ ":" ++ token)) ⟨"tok"⟩ sampleEmpty "{}" rfl,
   lifecycle_urls_and_token.2.2.2.1 (fun _ => Except.ok "{}")
      (fun url token _ => some (url ++ ":" ++ token)) ⟨"tok"⟩ sampleEmpty "{}" rfl⟩

theorem json_str_injective : Function.Injective Json.str := by
  intro a b h
  injection h

/-- C2 as stated is false: translating `sampleTimed`, whose `time_start`
field is 10, produces a `time.start` value of 10000, so a field value is
altered by the translation (not merely a key name); and the payloads of
`sampleFull` and `sampleFullComputed`, which differ exactly in the computed
fields `synced` and `last_updated`, are identical, so re-parsing cannot
recover those two field values either. -/
theorem roundtrip_counterexample :
    sampleTimed.time_start = 10 ∧
    objLookup (getPayloadDashboard sampleTimed) "filters" =
      some (Json.obj [("time",
        Json.obj [("start", Json.int 10000), ("end", Json.int 20000)])]) ∧
    Json.int 10000 ≠ Json.int 10 ∧
    sampleFull.synced ≠ sampleFullComputed.synced ∧
    sampleFull.last_updated ≠ sampleFullComputed.last_updated ∧
    getPayloadDashboard sampleFull = getPayloadDashboard sampleFullComputed := by
  refine ⟨rfl, rfl, ?_, by decide, by decide, rfl⟩
  intro h
  injection h with h
  omega

/-- C2 amended: translation renames keys totally and losslessly
(`dashboard_group`→`groupId`, `chart_id`→`chartId`, `values`→`value`,
`negated`→`NOT`) and re-parsing the payload recovers every field value
unchanged, with exactly the exceptions the counterexample forces:
`time_start` / `time_end` reappear multiplied by 1000 under Go's wrapping
64-bit arithmetic (and are dropped when 0), and the computed fields
`synced` / `last_updated` are not serialized; the per-entry maps are
injective, so no information is lost within the serialized entries. -/
theorem roundtrip_amended (d : ResourceData) :
    objLookup (getPayloadDashboard d) "name" = some (Json.str d.name) ∧
    objLookup (getPayloadDashboard d) "description" = some (Json.str d.description) ∧
    objLookup (getPayloadDashboard d) "groupId" = some (Json.str d.dashboard_group) ∧
    (∀ j, objLookup (getPayloadDashboard d) "charts" = some j →
      j = Json.arr (d.chart.map (fun c => Json.obj (chartItem c)))) ∧
    (∀ j, objLookup (getPayloadDashboard d) "filters" = some j →
      (∀ s, objLookup j "sources" = some s →
        s = Json.arr (d.filter.map (fun f => Json.obj (filterItem f)))) ∧
      (∀ v, objLookup j "variables" = some v →
        v = Json.arr (d.vars.map (fun x => Json.obj (variableItem x)))) ∧
      (∀ t, objLookup j "time" = some t →
        objLookup t "start" =
          (if d.time_start = 0 then none
            else some (Json.int (wrap64 (d.time_start * 1000)))) ∧
        objLookup t "end" =
          (if d.time_end = 0 then none
            else some (Json.int (wrap64 (d.time_end * 1000)))))) ∧
    Function.Injective chartItem ∧
    Function.Injective variableItem ∧
    Function.Injective filterItem := by
  have hstr := List.map_injective_iff.mpr json_str_injective
  refine ⟨payload_lookup_name d, payload_lookup_description d,
    payload_lookup_groupId d, ?_, ?_, ?_, ?_, ?_⟩
  · intro j hj
    rw [payload_lookup_charts] at hj
    by_cases hc : d.chart = []
    · simp [hc] at hj
    · rw [if_neg hc] at hj
      obtain rfl := (Option.some.injEq _ _).mp hj
      simp [getDashboardCharts, List.map_map, Function.comp]
  · intro j hj
    rw [payload_lookup_filters] at hj
    by_cases h : d.filter = [] ∧ d.vars = [] ∧ d.time_start = 0 ∧ d.time_end = 0
    · simp [h] at hj
    · rw [if_neg h] at hj
      obtain rfl := (Option.some.injEq _ _).mp hj
      refine ⟨?_, ?_, ?_⟩
      · intro sj hs
        simp only [objLookup] at hs
        rw [lookup_all_filters_sources] at hs
        by_cases hf : d.filter = []
        · simp [hf] at hs
        · rw [if_neg hf] at hs
          obtain rfl := (Option.some.injEq _ _).mp hs
          simp [getDashboardFilters, List.map_map, Function.comp]
      · intro vj hv
        simp only [objLookup] at hv
        rw [lookup_all_filters_variables] at hv
        by_cases hvv : d.vars = []
        · simp [hvv] at hv
        · rw [if_neg hvv] at hv
          obtain rfl := (Option.some.injEq _ _).mp hv
          simp [getDashboardVariables, List.map_map, Function.comp]
      · intro tj ht
        simp only [objLookup] at ht
        rw [lookup_all_filters_time] at ht
        by_cases htt : d.time_start = 0 ∧ d.time_end = 0
        · simp [htt] at ht
        · rw [if_neg htt] at ht
          obtain rfl := (Option.some.injEq _ _).mp ht
          exact ⟨lookup_time_start d, lookup_time_end d⟩
  · intro a b hab
    cases a
    cases b
    simp_all [chartItem]
  · intro a b hab
    cases a
    cases b
    simp_all [variableItem, hstr.eq_iff]
  · intro a b hab
    cases a
    cases b
    simp_all [filterItem, hstr.eq_iff]

/-- Witness for `roundtrip_amended`: at a fully populated dashboard the
`charts` array and the `sources` array are exactly the per-entry images. -/
theorem roundtrip_amended_witness :
    Json.arr ((getDashboardCharts sampleFull).map Json.obj) =
      Json.arr (sampleFull.chart.map (fun c => Json.obj (chartItem c))) ∧
    Json.arr ((getDashboardFilters sampleFull).map Json.obj) =
      Json.arr (sampleFull.filter.map (fun f => Json.obj (filterItem f))) :=
  ⟨(roundtrip_amended sampleFull).2.2.2.1 _ rfl,
   ((roundtrip_amended sampleFull).2.2.2.2.1 _ rfl).1 _ rfl⟩

end Signalform
